import Mathlib

/-!
Shallow embedding of the clouddk-csi-driver instance lifecycle manager
(`driver/server.go`) and of the CSI identity server (`driver/identity_server.go`
part of the same package).  External collaborators (the clouddk HTTP client,
the SSH library, the random source) appear as oracles in an `Env` record; the
functions below mirror the Go methods statement by statement.
-/

namespace Driver

/-- One IP address of a network interface (`clouddk.IPAddressBody`): only the
`Address` field is used by the driver. -/
structure IPAddress where
  Address : String := ""
deriving Repr, DecidableEq

/-- One network interface (`clouddk.NetworkInterfaceBody`): the driver only
reads the ordered list of IP addresses. -/
structure NetworkInterface where
  IPAddresses : List IPAddress := []
deriving Repr, DecidableEq

/-- The decoded server description (`clouddk.ServerBody`), restricted to the
fields the driver reads or writes: `Identifier`, `Hostname`, `Label`,
`Booted` and `NetworkInterfaces`. -/
structure ServerBody where
  Identifier : String := ""
  Hostname : String := ""
  Label : String := ""
  Booted : Bool := false
  NetworkInterfaces : List NetworkInterface := []
deriving Repr, DecidableEq

/-- The zero value of `clouddk.ServerBody` assigned on reset. -/
def emptyServerBody : ServerBody := {}

/-- The request body of `POST cloudservers` (`clouddk.ServerCreateBody`). -/
structure ServerCreateBody where
  Hostname : String
  Label : String
  InitialRootPassword : String
  Package : String
  Template : String
  Location : String
deriving Repr, DecidableEq

/-- The driver configuration reachable from a `CloudServer` as
`s.Driver.Configuration`; only the key material is read by this file's code
(the `ClientSettings` are folded into the transport oracle). -/
structure DriverConfiguration where
  PublicKey : String := ""
  PrivateKey : String := ""
deriving Repr, DecidableEq

/-- The driver record (`Driver`), restricted to its configuration. -/
structure DriverData where
  Configuration : DriverConfiguration := {}
deriving Repr, DecidableEq

/-- `CloudServer` manages a Cloud.dk server: a pointer to the driver and the
currently bound server information.  The zero value is the unbound state. -/
structure CloudServer where
  Driver : DriverData := {}
  Information : ServerBody := {}
deriving Repr, DecidableEq

/-- HTTP methods used by the driver. -/
inductive Method where
  | GET
  | POST
  | DELETE
deriving Repr, DecidableEq

/-- One HTTP request issued through `clouddk.DoClientRequest`, recorded in the
trace that the embedded operations return: method, path, and the encoded
create body when one is sent (`new(bytes.Buffer)` otherwise). -/
structure Request where
  method : Method
  path : String
  body : Option ServerCreateBody
deriving Repr, DecidableEq

/-- The payload of an HTTP response, as seen through `json.Decode`: either a
well-formed server object, a well-formed server list, an empty payload, or
bytes that fail to decode into the expected shape. -/
inductive ResponseBody where
  | server (s : ServerBody)
  | serverList (l : List ServerBody)
  | empty
  | malformed
deriving Repr, DecidableEq

/-- What the transport returns for one request: a transport-level failure, or
a response with a status code and a payload. -/
inductive RequestOutcome where
  | transportError
  | response (status : Nat) (body : ResponseBody)
deriving Repr, DecidableEq

/-- The environment of oracles standing for the external collaborators:
the clouddk HTTP transport, the SSH dialer (password mode, keyed by target
address, password and elapsed milliseconds), session creation, the bootstrap
command run through `CombinedOutput` (keyed by the trimmed public key that is
spliced into the fixed command string), the random source behind
`rand.Intn`, private-key parsing, and the key-based SSH dialer. -/
structure Env where
  request : Method → String → RequestOutcome
  dial : String → String → Nat → Bool
  newSession : Bool
  runBootstrap : String → Bool
  rnd : Nat → Nat
  parsePrivateKey : String → Bool
  keyDial : String → Bool

/-- The error values produced by the embedded operations, one constructor per
distinct error site in `driver/server.go`. -/
inductive Err where
  | alreadyInitialized
  | notInitialized
  | emptyHostnameArg
  | emptyIDArg
  | requestFailed (method : Method) (path : String) (status : Option Nat)
  | decodeFailed
  | provisioningDefect (id : String)
  | sshDialFailed
  | sessionFailed
  | bootstrapFailed
  | hostnameNotFound (hostname : String)
  | keyParseFailed
deriving Repr, DecidableEq

/-- A computation that either finishes normally or aborts with a Go runtime
index-out-of-range panic (unguarded slice indexing). -/
inductive RunResult (α : Type) where
  | normal (a : α)
  | outOfRange
deriving Repr, DecidableEq

/-- Modelled from the spec: the external Remote Control-Plane Client
(`clouddk.DoClientRequest`, vendored outside this repository).  Per spec §2
and §6 it performs an HTTP call with a status-code-based success check and a
fixed retry/backoff count; with a deterministic transport oracle the retries
are observationally one attempt, so the retry parameters are carried but
unused.  Returns the decoded-status outcome together with the singleton
request trace. -/
def DoClientRequest (env : Env) (method : Method) (path : String)
    (body : Option ServerCreateBody) (expectedCodes : List Nat)
    (retryLimit : Nat) (retryDelay : Nat) :
    Except Err (Nat × ResponseBody) × List Request :=
  let _ := retryLimit
  let _ := retryDelay
  match env.request method path with
  | .transportError => (.error (.requestFailed method path none), [⟨method, path, body⟩])
  | .response st b =>
      if st ∈ expectedCodes then (.ok (st, b), [⟨method, path, body⟩])
      else (.error (.requestFailed method path (some st)), [⟨method, path, body⟩])

/-- `json.NewDecoder(res.Body).Decode(&serverBody)`: succeeds exactly when the
payload is a well-formed server object. -/
def decodeServer : ResponseBody → Except Err ServerBody
  | .server s => .ok s
  | _ => .error .decodeFailed

/-- `json.NewDecoder(res.Body).Decode(&serverList)`: succeeds exactly when the
payload is a well-formed server list. -/
def decodeServerList : ResponseBody → Except Err (List ServerBody)
  | .serverList l => .ok l
  | _ => .error .decodeFailed

/-- The 62-character alphabet of `GetRandomPassword`, literally the rune
slice built at `server.go:190`. -/
def passwordChars : List Char :=
  "ABCDEFGHIJKLMNOPQRSTUVWXYZabcdefghijklmnopqrstuvwxyz0123456789".toList

/-- `GetRandomPassword` (`server.go:187-197`): writes `length` runes, each
`chars[rand.Intn(len(chars))]`.  The random source is the oracle stream
`rnd`; `rand.Intn(n)` on the i-th draw is `rnd i % n`, which is always in
range, so the `getD` default is never used. -/
def GetRandomPassword (rnd : Nat → Nat) (length : Nat) : String :=
  String.mk ((List.range length).map fun i =>
    passwordChars.getD (rnd i % passwordChars.length) 'A')

/-- `timeDelay := int64(10)` (seconds) at `server.go:89`. -/
def timeDelaySec : Nat := 10

/-- `timeMax := float64(300)` at `server.go:90`, in milliseconds. -/
def timeMaxMs : Nat := 300000

/-- Result of the readiness-probe loop: whether a dial succeeded, the elapsed
milliseconds when the loop ended, and the elapsed times at which connection
attempts were made. -/
structure ProbeResult where
  success : Bool
  finalElapsed : Nat
  attempts : List Nat
deriving Repr, DecidableEq

/-- The readiness-probe loop of `Create` (`server.go:96-110`), with time in
milliseconds.  Per iteration: while `elapsed < timeMax` seconds, attempt a
dial only when the truncated elapsed seconds are a multiple of `timeDelay`;
a failed attempt sleeps 1 s, every iteration then sleeps 200 ms and refreshes
`elapsed`.  The structural `fuel` argument bounds the iteration count; every
iteration advances `elapsed` by at least 200 ms, so
`proberFuel * 200 = timeMaxMs` makes the fuel inexhaustible (proved below). -/
def proberLoop (dial : Nat → Bool) : Nat → Nat → ProbeResult
  | 0, elapsed => ⟨false, elapsed, []⟩
  | fuel + 1, elapsed =>
    if elapsed < timeMaxMs then
      if (elapsed / 1000) % timeDelaySec = 0 then
        if dial elapsed then ⟨true, elapsed, [elapsed]⟩
        else
          let r := proberLoop dial fuel (elapsed + 1000 + 200)
          ⟨r.success, r.finalElapsed, elapsed :: r.attempts⟩
      else proberLoop dial fuel (elapsed + 200)
    else ⟨false, elapsed, []⟩

/-- Iteration bound for `proberLoop`: `1500 * 200 ms = 300 s`. -/
def proberFuel : Nat := 1500

/-- `Destroy` (`server.go:158-184`): refuse when unbound; otherwise issue
`DELETE cloudservers/<id>` accepting statuses 200 and 404 with the resilient
retry policy (60 attempts, 10 units); on success reset `Information` to the
zero value, on failure return the error with the state untouched. -/
def Destroy (env : Env) (s : CloudServer) :
    CloudServer × Except Err Unit × List Request :=
  if s.Information.Identifier = "" then
    (s, .error .notInitialized, [])
  else
    match DoClientRequest env .DELETE ("cloudservers/" ++ s.Information.Identifier)
        none [200, 404] 60 10 with
    | (.error e, tr) => (s, .error e, tr)
    | (.ok _, tr) => ({ s with Information := emptyServerBody }, .ok (), tr)

/-- The `clouddk.ServerCreateBody` literal built at `server.go:37-44`, with
the root password `"p" + GetRandomPassword(63)` from `server.go:35`. -/
def createBody (rnd : Nat → Nat) (locationID packageID hostname : String) :
    ServerCreateBody :=
  { Hostname := hostname
    Label := hostname
    InitialRootPassword := "p" ++ GetRandomPassword rnd 63
    Package := packageID
    Template := "ubuntu-18.04-x64"
    Location := locationID }

/-- The dial target `NetworkInterfaces[0].IPAddresses[0].Address + ":22"`
given the already-extracted first address. -/
def dialTarget (ip : IPAddress) : String := ip.Address ++ ":22"

/-- `Create` (`server.go:28-155`), step by step: refuse when bound; build the
create body (JSON-encoding a struct of strings cannot fail, so the encode
error branch is vacuous); `POST cloudservers` expecting 200 with the
non-resilient policy (1 attempt, 1 unit); reset and decode `Information`;
if the interface list is empty, remember the defect error, call `Destroy`
(its result discarded) and return the defect error; otherwise run the
readiness-probe loop — the Go code indexes
`NetworkInterfaces[0].IPAddresses[0]` unguarded inside the loop, which
panics when the first interface has no addresses, modelled by `.outOfRange`;
on probe timeout call `Destroy` and return the dial error; on probe success
set `Booted := true`, then open a session and run the bootstrap command,
each failure calling `Destroy` and returning its own error; on full success
return `nil`. -/
def Create (env : Env) (s : CloudServer)
    (locationID packageID hostname : String) :
    RunResult (CloudServer × Except Err Unit × List Request) :=
  if s.Information.Identifier ≠ "" then
    .normal (s, .error .alreadyInitialized, [])
  else
    let body := createBody env.rnd locationID packageID hostname
    match DoClientRequest env .POST "cloudservers" (some body) [200] 1 1 with
    | (.error e, tr) => .normal (s, .error e, tr)
    | (.ok (_, resBody), tr) =>
      match decodeServer resBody with
      | .error e => .normal ({ s with Information := emptyServerBody }, .error e, tr)
      | .ok info =>
        let s1 : CloudServer := { s with Information := info }
        match info.NetworkInterfaces with
        | [] =>
          let e := Err.provisioningDefect info.Identifier
          let d := Destroy env s1
          .normal (d.1, .error e, tr ++ d.2.2)
        | ni0 :: _ =>
          match ni0.IPAddresses with
          | [] => .outOfRange
          | ip0 :: _ =>
            let probe := proberLoop
              (env.dial (dialTarget ip0) (body.InitialRootPassword)) proberFuel 0
            if !probe.success then
              let d := Destroy env s1
              .normal (d.1, .error .sshDialFailed, tr ++ d.2.2)
            else
              let s2 : CloudServer :=
                { s1 with Information := { s1.Information with Booted := true } }
              if !env.newSession then
                let d := Destroy env s2
                .normal (d.1, .error .sessionFailed, tr ++ d.2.2)
              else if !env.runBootstrap s.Driver.Configuration.PublicKey.trim then
                let d := Destroy env s2
                .normal (d.1, .error .bootstrapFailed, tr ++ d.2.2)
              else
                .normal (s2, .ok (), tr)

/-- Modelled from the spec: `url.QueryEscape` from the Go standard library is
outside this repository; no claim inspects the escaped form, so escaping is
the identity on the opaque hostname. -/
def queryEscape (s : String) : String := s

/-- `InitializeByHostname` (`server.go:200-239`): refuse when bound or when
the hostname is empty; `GET cloudservers?hostname=<escaped>` expecting 200;
decode a server list; bind to the first entry whose hostname matches
exactly, else report not-found (`notFound = true`). -/
def InitializeByHostname (env : Env) (s : CloudServer) (hostname : String) :
    CloudServer × Bool × Except Err Unit × List Request :=
  if s.Information.Identifier ≠ "" then
    (s, false, .error .alreadyInitialized, [])
  else if hostname = "" then
    (s, false, .error .emptyHostnameArg, [])
  else
    match DoClientRequest env .GET
        ("cloudservers?hostname=" ++ queryEscape hostname) none [200] 1 1 with
    | (.error e, tr) => (s, false, .error e, tr)
    | (.ok (_, resBody), tr) =>
      match decodeServerList resBody with
      | .error e => (s, false, .error e, tr)
      | .ok servers =>
        match servers.find? (fun v => v.Hostname = hostname) with
        | some v => ({ s with Information := v }, false, .ok (), tr)
        | none => (s, true, .error (.hostnameNotFound hostname), tr)

/-- `InitializeByID` (`server.go:242-272`): refuse when bound or when the id
is empty; `GET cloudservers/<id>` expecting 200; on request failure the
`notFound` flag is exactly "the response status was 404"; decode straight
into `Information` and bind. -/
def InitializeByID (env : Env) (s : CloudServer) (id : String) :
    CloudServer × Bool × Except Err Unit × List Request :=
  if s.Information.Identifier ≠ "" then
    (s, false, .error .alreadyInitialized, [])
  else if id = "" then
    (s, false, .error .emptyIDArg, [])
  else
    match DoClientRequest env .GET ("cloudservers/" ++ id) none [200] 1 1 with
    | (.error e, tr) =>
      (s, (env.request .GET ("cloudservers/" ++ id)
            matches .response 404 _), .error e, tr)
    | (.ok (_, resBody), tr) =>
      match decodeServer resBody with
      | .error e => (s, false, .error e, tr)
      | .ok info => ({ s with Information := info }, false, .ok (), tr)

/-- `SSH` (`server.go:275-300`): refuse when unbound; parse the configured
private key; dial `NetworkInterfaces[0].IPAddresses[0].Address + ":22"` with
key auth — the two indexings are unguarded, so an empty interface list or an
empty first-interface address list is a Go runtime panic, modelled by
`.outOfRange`.  `.normal (.ok ())` stands for a returned client. -/
def SSH (env : Env) (s : CloudServer) : RunResult (Except Err Unit) :=
  if s.Information.Identifier = "" then
    .normal (.error .notInitialized)
  else if !env.parsePrivateKey s.Driver.Configuration.PrivateKey then
    .normal (.error .keyParseFailed)
  else
    match s.Information.NetworkInterfaces with
    | [] => .outOfRange
    | ni0 :: _ =>
      match ni0.IPAddresses with
      | [] => .outOfRange
      | ip0 :: _ =>
        if env.keyDial (dialTarget ip0) then .normal (.ok ())
        else .normal (.error .sshDialFailed)

/-- The two CSI plugin service capability kinds the identity server can
advertise. -/
inductive PluginServiceType where
  | CONTROLLER_SERVICE
  | VOLUME_ACCESSIBILITY_CONSTRAINTS
deriving Repr, DecidableEq

/-- One advertised plugin capability (service type only). -/
structure PluginCapability where
  service : PluginServiceType
deriving Repr, DecidableEq

/-- Response of the capability query. -/
structure GetPluginCapabilitiesResponse where
  Capabilities : List PluginCapability
deriving Repr, DecidableEq

/-- Response of the plugin-info query. -/
structure GetPluginInfoResponse where
  Name : String
  VendorVersion : String
deriving Repr, DecidableEq

/-- Response of the health probe (`wrappers.BoolValue` as `Bool`). -/
structure ProbeResponse where
  Ready : Bool
deriving Repr, DecidableEq

/-- Modelled from the spec: the `DriverName` constant is declared outside
`src/` (the identity server only references it); spec §6 fixes it to be one
constant string, its value taken from the build manifest's project name. -/
def DriverName : String := "clouddk-csi-driver"

/-- Modelled from the spec: the `DriverVersion` constant is declared outside
`src/`; spec §6 fixes it to be one constant string, its value taken from the
build manifest's version. -/
def DriverVersion : String := "0.1.0"

/-- `GetPluginCapabilities` (`identity_server.go`): ignores the request and
returns the two service capabilities, controller service first, with a nil
error. -/
def GetPluginCapabilities (req : Unit) :
    GetPluginCapabilitiesResponse × Option Err :=
  let _ := req
  (⟨[⟨.CONTROLLER_SERVICE⟩, ⟨.VOLUME_ACCESSIBILITY_CONSTRAINTS⟩]⟩, none)

/-- `GetPluginInfo` (`identity_server.go`): ignores the request and returns
the fixed name and version constants with a nil error. -/
def GetPluginInfo (req : Unit) : GetPluginInfoResponse × Option Err :=
  let _ := req
  (⟨DriverName, DriverVersion⟩, none)

/-- `Probe` (`identity_server.go`): ignores the request and always returns
`Ready = false` with a nil error. -/
def Probe (req : Unit) : ProbeResponse × Option Err :=
  let _ := req
  (⟨false⟩, none)

/-- The `CloudServer` state held by the caller after `Create` finished, when
it finished without a runtime panic. -/
def stateOf : RunResult (CloudServer × Except Err Unit × List Request) →
    Option CloudServer
  | .normal r => some r.1
  | .outOfRange => none

/-- The error/success outcome of a finished `Create`, when it finished
without a runtime panic. -/
def outcomeOf : RunResult (CloudServer × Except Err Unit × List Request) →
    Option (Except Err Unit)
  | .normal r => some r.2.1
  | .outOfRange => none

/-- The HTTP requests issued by a finished `Create`. -/
def traceOf : RunResult (CloudServer × Except Err Unit × List Request) →
    List Request
  | .normal r => r.2.2
  | .outOfRange => []

/-- Whether the transport answers the compensating
`DELETE cloudservers/<id>` with one of the two accepted statuses, i.e.
whether a `Destroy` of a server bound to `id` succeeds in environment
`env`. -/
def deleteAccepted (env : Env) (id : String) : Bool :=
  match env.request .DELETE ("cloudservers/" ++ id) with
  | .transportError => false
  | .response st _ => st == 200 || st == 404

/-- An environment in which every external call fails: the transport always
reports a transport error, no dial succeeds, no session opens, key parsing
fails, and the random stream is constantly zero. -/
def stubEnv : Env where
  request := fun _ _ => .transportError
  dial := fun _ _ _ => false
  newSession := false
  runBootstrap := fun _ => false
  rnd := fun _ => 0
  parsePrivateKey := fun _ => false
  keyDial := fun _ => false

/-- The zero-valued, unbound `CloudServer`. -/
def unboundServer : CloudServer := {}

/-- A decoded server body with one interface holding one address. -/
def goodInfo : ServerBody :=
  { Identifier := "srv1", Hostname := "host-a", Label := "host-a",
    NetworkInterfaces := [{ IPAddresses := [{ Address := "10.0.0.1" }] }] }

/-- A `CloudServer` bound to `goodInfo`. -/
def boundServer : CloudServer := { Information := goodInfo }

/-- Creation succeeds and the probe dial connects at once, but opening the
shell session fails and so does the compensating `DELETE`. -/
def envSessionFailDeleteFail : Env :=
  { stubEnv with
    request := fun m _ =>
      match m with
      | .POST => .response 200 (.server goodInfo)
      | _ => .transportError
    dial := fun _ _ _ => true }

/-- Creation succeeds and the probe dial connects at once, opening the shell
session fails, and the compensating `DELETE` is answered with 200. -/
def envSessionFailDelete200 : Env :=
  { stubEnv with
    request := fun m _ =>
      match m with
      | .POST => .response 200 (.server goodInfo)
      | .DELETE => .response 200 .empty
      | .GET => .transportError
    dial := fun _ _ _ => true }

/-- Creation, probe dial, session and bootstrap all succeed. -/
def envFullSuccess : Env :=
  { stubEnv with
    request := fun m _ =>
      match m with
      | .POST => .response 200 (.server goodInfo)
      | _ => .transportError
    dial := fun _ _ _ => true
    newSession := true
    runBootstrap := fun _ => true }

/-- Creation succeeds but no probe dial ever connects; the compensating
`DELETE` is answered with 200. -/
def envTimeoutDelete200 : Env :=
  { stubEnv with
    request := fun m _ =>
      match m with
      | .POST => .response 200 (.server goodInfo)
      | .DELETE => .response 200 .empty
      | .GET => .transportError }

/-- A decoded server body with an identifier but no network interfaces. -/
def defectInfo : ServerBody := { Identifier := "srv1", Hostname := "host-a" }

/-- Creation succeeds but returns `defectInfo` (no interfaces); the
compensating `DELETE` is answered with 200. -/
def envDefectDelete200 : Env :=
  { stubEnv with
    request := fun m _ =>
      match m with
      | .POST => .response 200 (.server defectInfo)
      | .DELETE => .response 200 .empty
      | .GET => .transportError }

/-- A decoded server body with no identifier and no network interfaces. -/
def defectInfoNoID : ServerBody := { Hostname := "host-a" }

/-- Creation succeeds but returns `defectInfoNoID`: an empty identifier and
no interfaces. -/
def envDefectNoID : Env :=
  { stubEnv with
    request := fun m _ =>
      match m with
      | .POST => .response 200 (.server defectInfoNoID)
      | _ => .transportError }

/-- The transport answers any `DELETE` with 200 and fails everything else. -/
def envDelete200 : Env :=
  { stubEnv with
    request := fun m _ =>
      match m with
      | .DELETE => .response 200 .empty
      | _ => .transportError }

/-- A `CloudServer` bound to a resource with no network interfaces. -/
def noNICServer : CloudServer := { Information := defectInfo }

/-- A `CloudServer` bound to a resource whose first interface has no
addresses. -/
def noIPServer : CloudServer :=
  { Information := { Identifier := "srv2",
                     NetworkInterfaces := [{ IPAddresses := [] }] } }

/-- Lookups return `defectInfo` (no interfaces) and private keys parse. -/
def envLookupNoNIC : Env :=
  { stubEnv with
    request := fun m _ =>
      match m with
      | .GET => .response 200 (.server defectInfo)
      | _ => .transportError
    parsePrivateKey := fun _ => true }

/-! Helper lemmas shared by the claim theorems below. -/

theorem destroy_unbound_eq (env : Env) (s : CloudServer)
    (hs : s.Information.Identifier = "") :
    Destroy env s = (s, .error .notInitialized, []) := by
  simp [Destroy, hs]

theorem create_bound_eq (env : Env) (s : CloudServer)
    (loc pkg host : String) (hs : s.Information.Identifier ≠ "") :
    Create env s loc pkg host = .normal (s, .error .alreadyInitialized, []) := by
  simp [Create, hs]

theorem destroy_accepted_eq (env : Env) (s : CloudServer)
    (hs : s.Information.Identifier ≠ "")
    (hacc : deleteAccepted env s.Information.Identifier = true) :
    Destroy env s =
      ({ s with Information := emptyServerBody }, .ok (),
        [⟨.DELETE, "cloudservers/" ++ s.Information.Identifier, none⟩]) := by
  unfold deleteAccepted at hacc
  cases hreq : env.request .DELETE ("cloudservers/" ++ s.Information.Identifier) with
  | transportError => rw [hreq] at hacc; simp at hacc
  | response st b =>
    rw [hreq] at hacc
    simp only [beq_iff_eq, Bool.or_eq_true] at hacc
    simp only [Destroy, hs, if_false, DoClientRequest, hreq, ite_not]
    rcases hacc with rfl | rfl <;> simp

theorem destroy_rejected_eq (env : Env) (s : CloudServer)
    (hs : s.Information.Identifier ≠ "")
    (hacc : deleteAccepted env s.Information.Identifier = false) :
    ∃ e, Destroy env s =
      (s, .error e,
        [⟨.DELETE, "cloudservers/" ++ s.Information.Identifier, none⟩]) := by
  unfold deleteAccepted at hacc
  cases hreq : env.request .DELETE ("cloudservers/" ++ s.Information.Identifier) with
  | transportError =>
    exact ⟨.requestFailed .DELETE ("cloudservers/" ++ s.Information.Identifier) none,
      by simp [Destroy, hs, DoClientRequest, hreq]⟩
  | response st b =>
    rw [hreq] at hacc
    simp only [Bool.or_eq_false_iff, beq_eq_false_iff_ne] at hacc
    exact ⟨.requestFailed .DELETE ("cloudservers/" ++ s.Information.Identifier) (some st),
      by simp [Destroy, hs, DoClientRequest, hreq, hacc.1, hacc.2]⟩

theorem doRequest_post_eq (env : Env) (body : ServerCreateBody) (info : ServerBody)
    (hpost : env.request .POST "cloudservers" = .response 200 (.server info)) :
    DoClientRequest env .POST "cloudservers" (some body) [200] 1 1 =
      (.ok (200, .server info), [⟨.POST, "cloudservers", some body⟩]) := by
  simp [DoClientRequest, hpost]

theorem create_defect_eq (env : Env) (s : CloudServer) (loc pkg host : String)
    (info : ServerBody)
    (hs : s.Information.Identifier = "")
    (hpost : env.request .POST "cloudservers" = .response 200 (.server info))
    (hni : info.NetworkInterfaces = []) :
    Create env s loc pkg host = .normal
      ((Destroy env { s with Information := info }).1,
        .error (.provisioningDefect info.Identifier),
        ⟨.POST, "cloudservers", some (createBody env.rnd loc pkg host)⟩ ::
          (Destroy env { s with Information := info }).2.2) := by
  simp [Create, hs, doRequest_post_eq env (createBody env.rnd loc pkg host) info hpost,
    decodeServer, hni]

theorem create_dialfail_eq (env : Env) (s : CloudServer) (loc pkg host : String)
    (info : ServerBody) (ni0 : NetworkInterface) (nis : List NetworkInterface)
    (ip0 : IPAddress) (ips : List IPAddress)
    (hs : s.Information.Identifier = "")
    (hpost : env.request .POST "cloudservers" = .response 200 (.server info))
    (hni : info.NetworkInterfaces = ni0 :: nis)
    (hip : ni0.IPAddresses = ip0 :: ips)
    (hprobe : (proberLoop (env.dial (dialTarget ip0)
        (createBody env.rnd loc pkg host).InitialRootPassword) proberFuel 0).success
      = false) :
    Create env s loc pkg host = .normal
      ((Destroy env { s with Information := info }).1, .error .sshDialFailed,
        ⟨.POST, "cloudservers", some (createBody env.rnd loc pkg host)⟩ ::
          (Destroy env { s with Information := info }).2.2) := by
  simp [Create, hs, doRequest_post_eq env (createBody env.rnd loc pkg host) info hpost,
    decodeServer, hni, hip, hprobe]

theorem create_sessionfail_eq (env : Env) (s : CloudServer) (loc pkg host : String)
    (info : ServerBody) (ni0 : NetworkInterface) (nis : List NetworkInterface)
    (ip0 : IPAddress) (ips : List IPAddress)
    (hs : s.Information.Identifier = "")
    (hpost : env.request .POST "cloudservers" = .response 200 (.server info))
    (hni : info.NetworkInterfaces = ni0 :: nis)
    (hip : ni0.IPAddresses = ip0 :: ips)
    (hprobe : (proberLoop (env.dial (dialTarget ip0)
        (createBody env.rnd loc pkg host).InitialRootPassword) proberFuel 0).success
      = true)
    (hsess : env.newSession = false) :
    Create env s loc pkg host = .normal
      ((Destroy env { s with Information := { info with Booted := true } }).1,
        .error .sessionFailed,
        ⟨.POST, "cloudservers", some (createBody env.rnd loc pkg host)⟩ ::
          (Destroy env { s with Information := { info with Booted := true } }).2.2) := by
  simp [Create, hs, doRequest_post_eq env (createBody env.rnd loc pkg host) info hpost,
    decodeServer, hni, hip, hprobe, hsess]

theorem create_bootstrapfail_eq (env : Env) (s : CloudServer) (loc pkg host : String)
    (info : ServerBody) (ni0 : NetworkInterface) (nis : List NetworkInterface)
    (ip0 : IPAddress) (ips : List IPAddress)
    (hs : s.Information.Identifier = "")
    (hpost : env.request .POST "cloudservers" = .response 200 (.server info))
    (hni : info.NetworkInterfaces = ni0 :: nis)
    (hip : ni0.IPAddresses = ip0 :: ips)
    (hprobe : (proberLoop (env.dial (dialTarget ip0)
        (createBody env.rnd loc pkg host).InitialRootPassword) proberFuel 0).success
      = true)
    (hsess : env.newSession = true)
    (hboot : env.runBootstrap s.Driver.Configuration.PublicKey.trim = false) :
    Create env s loc pkg host = .normal
      ((Destroy env { s with Information := { info with Booted := true } }).1,
        .error .bootstrapFailed,
        ⟨.POST, "cloudservers", some (createBody env.rnd loc pkg host)⟩ ::
          (Destroy env { s with Information := { info with Booted := true } }).2.2) := by
  simp [Create, hs, doRequest_post_eq env (createBody env.rnd loc pkg host) info hpost,
    decodeServer, hni, hip, hprobe, hsess, hboot]

theorem create_success_eq (env : Env) (s : CloudServer) (loc pkg host : String)
    (info : ServerBody) (ni0 : NetworkInterface) (nis : List NetworkInterface)
    (ip0 : IPAddress) (ips : List IPAddress)
    (hs : s.Information.Identifier = "")
    (hpost : env.request .POST "cloudservers" = .response 200 (.server info))
    (hni : info.NetworkInterfaces = ni0 :: nis)
    (hip : ni0.IPAddresses = ip0 :: ips)
    (hprobe : (proberLoop (env.dial (dialTarget ip0)
        (createBody env.rnd loc pkg host).InitialRootPassword) proberFuel 0).success
      = true)
    (hsess : env.newSession = true)
    (hboot : env.runBootstrap s.Driver.Configuration.PublicKey.trim = true) :
    Create env s loc pkg host = .normal
      ({ s with Information := { info with Booted := true } }, .ok (),
        [⟨.POST, "cloudservers", some (createBody env.rnd loc pkg host)⟩]) := by
  simp [Create, hs, doRequest_post_eq env (createBody env.rnd loc pkg host) info hpost,
    decodeServer, hni, hip, hprobe, hsess, hboot]

theorem proberLoop_finalElapsed_le (dial : Nat → Bool) :
    ∀ fuel e : Nat, e % 200 = 0 → e ≤ timeMaxMs →
      (proberLoop dial fuel e).finalElapsed ≤ timeMaxMs := by
  intro fuel
  induction fuel with
  | zero => intro e _ h2; simpa [proberLoop] using h2
  | succ n ih =>
    intro e h1 h2
    by_cases hlt : e < timeMaxMs
    · by_cases htick : (e / 1000) % timeDelaySec = 0
      · by_cases hd : dial e
        · simpa [proberLoop, hlt, htick, hd] using le_of_lt hlt
        · have h10 : (e / 1000) % 10 = 0 := htick
          have hm : e < 300000 := hlt
          have hb : e + 1000 + 200 ≤ timeMaxMs := by
            show e + 1000 + 200 ≤ 300000
            omega
          simp only [proberLoop, hlt, htick, hd, if_true, Bool.false_eq_true,
            if_false, ite_true, ite_false]
          exact ih (e + 1000 + 200) (by omega) hb
      · have hm : e < 300000 := hlt
        have hb : e + 200 ≤ timeMaxMs := by
          show e + 200 ≤ 300000
          omega
        simp only [proberLoop, hlt, htick, if_true, if_false, ite_true, ite_false]
        exact ih (e + 200) (by omega) hb
    · simpa [proberLoop, hlt] using h2

theorem proberLoop_attempts_aligned (dial : Nat → Bool) :
    ∀ fuel e : Nat, ∀ t ∈ (proberLoop dial fuel e).attempts,
      (t / 1000) % timeDelaySec = 0 := by
  intro fuel
  induction fuel with
  | zero => intro e t ht; simp [proberLoop] at ht
  | succ n ih =>
    intro e t ht
    by_cases hlt : e < timeMaxMs
    · by_cases htick : (e / 1000) % timeDelaySec = 0
      · by_cases hd : dial e
        · simp [proberLoop, hlt, htick, hd] at ht
          exact ht ▸ htick
        · simp only [proberLoop, hlt, htick, hd, if_true, Bool.false_eq_true,
            if_false, ite_true, ite_false, List.mem_cons] at ht
          rcases ht with rfl | ht
          · exact htick
          · exact ih (e + 1000 + 200) t ht
      · simp only [proberLoop, hlt, htick, if_true, if_false, ite_true,
          ite_false] at ht
        exact ih (e + 200) t ht
    · simp [proberLoop, hlt] at ht

theorem proberLoop_timeout_exhausts_budget (dial : Nat → Bool) :
    ∀ fuel e : Nat, timeMaxMs ≤ e + 200 * fuel →
      (proberLoop dial fuel e).success = false →
      timeMaxMs ≤ (proberLoop dial fuel e).finalElapsed := by
  intro fuel
  induction fuel with
  | zero => intro e h _; simpa [proberLoop] using h
  | succ n ih =>
    intro e h hfail
    by_cases hlt : e < timeMaxMs
    · by_cases htick : (e / 1000) % timeDelaySec = 0
      · by_cases hd : dial e
        · simp [proberLoop, hlt, htick, hd] at hfail
        · simp only [proberLoop, hlt, htick, hd, if_true, Bool.false_eq_true,
            if_false, ite_true, ite_false] at hfail ⊢
          exact ih (e + 1000 + 200) (by omega) hfail
      · simp only [proberLoop, hlt, htick, if_true, if_false, ite_true,
          ite_false] at hfail ⊢
        exact ih (e + 200) (by omega) hfail
    · simp only [proberLoop, hlt, if_false, ite_false]
      omega

theorem getRandomPassword_length (rnd : Nat → Nat) (len : Nat) :
    (GetRandomPassword rnd len).length = len := by
  simp [GetRandomPassword, String.length]

theorem getRandomPassword_alphabet (rnd : Nat → Nat) (len : Nat) :
    ∀ c ∈ (GetRandomPassword rnd len).data, c ∈ passwordChars := by
  intro c hc
  simp only [GetRandomPassword, List.mem_map, List.mem_range] at hc
  obtain ⟨i, _, rfl⟩ := hc
  have h : rnd i % passwordChars.length < passwordChars.length :=
    Nat.mod_lt _ (by decide)
  rw [List.getD_eq_getElem _ _ h]
  exact List.getElem_mem _

theorem create_trace_shape (env : Env) (s : CloudServer) (loc pkg host : String)
    (hs : s.Information.Identifier = "") :
    (∃ r, Create env s loc pkg host = .normal r ∧
      ∃ rest, r.2.2 =
        ⟨.POST, "cloudservers", some (createBody env.rnd loc pkg host)⟩ :: rest) ∨
    Create env s loc pkg host = .outOfRange := by
  cases hreq : env.request .POST "cloudservers" with
  | transportError =>
    exact Or.inl ⟨(s, .error (.requestFailed .POST "cloudservers" none),
      [⟨.POST, "cloudservers", some (createBody env.rnd loc pkg host)⟩]),
      by simp [Create, hs, DoClientRequest, hreq], [], rfl⟩
  | response st b =>
    by_cases hst : st = 200
    · subst hst
      cases b with
      | server info =>
        cases hni : info.NetworkInterfaces with
        | nil =>
          rw [create_defect_eq env s loc pkg host info hs hreq hni]
          exact Or.inl ⟨_, rfl, _, rfl⟩
        | cons ni0 nis =>
          cases hip : ni0.IPAddresses with
          | nil =>
            right
            simp [Create, hs,
              doRequest_post_eq env (createBody env.rnd loc pkg host) info hreq,
              decodeServer, hni, hip]
          | cons ip0 ips =>
            cases hpr : (proberLoop (env.dial (dialTarget ip0)
                (createBody env.rnd loc pkg host).InitialRootPassword)
                proberFuel 0).success with
            | false =>
              rw [create_dialfail_eq env s loc pkg host info ni0 nis ip0 ips
                hs hreq hni hip hpr]
              exact Or.inl ⟨_, rfl, _, rfl⟩
            | true =>
              cases hsess : env.newSession with
              | false =>
                rw [create_sessionfail_eq env s loc pkg host info ni0 nis ip0 ips
                  hs hreq hni hip hpr hsess]
                exact Or.inl ⟨_, rfl, _, rfl⟩
              | true =>
                cases hboot : env.runBootstrap s.Driver.Configuration.PublicKey.trim with
                | false =>
                  rw [create_bootstrapfail_eq env s loc pkg host info ni0 nis ip0 ips
                    hs hreq hni hip hpr hsess hboot]
                  exact Or.inl ⟨_, rfl, _, rfl⟩
                | true =>
                  rw [create_success_eq env s loc pkg host info ni0 nis ip0 ips
                    hs hreq hni hip hpr hsess hboot]
                  exact Or.inl ⟨_, rfl, _, rfl⟩
      | serverList l =>
        exact Or.inl ⟨({ s with Information := emptyServerBody }, .error .decodeFailed,
          [⟨.POST, "cloudservers", some (createBody env.rnd loc pkg host)⟩]),
          by simp [Create, hs, DoClientRequest, hreq, decodeServer], [], rfl⟩
      | empty =>
        exact Or.inl ⟨({ s with Information := emptyServerBody }, .error .decodeFailed,
          [⟨.POST, "cloudservers", some (createBody env.rnd loc pkg host)⟩]),
          by simp [Create, hs, DoClientRequest, hreq, decodeServer], [], rfl⟩
      | malformed =>
        exact Or.inl ⟨({ s with Information := emptyServerBody }, .error .decodeFailed,
          [⟨.POST, "cloudservers", some (createBody env.rnd loc pkg host)⟩]),
          by simp [Create, hs, DoClientRequest, hreq, decodeServer], [], rfl⟩
    · exact Or.inl ⟨(s, .error (.requestFailed .POST "cloudservers" (some st)),
        [⟨.POST, "cloudservers", some (createBody env.rnd loc pkg host)⟩]),
        by simp [Create, hs, DoClientRequest, hreq, hst], [], rfl⟩

theorem destroy_observables (env : Env) (s1 : CloudServer)
    (h : s1.Information.Identifier ≠ "") :
    (⟨.DELETE, "cloudservers/" ++ s1.Information.Identifier, none⟩ : Request) ∈
      (Destroy env s1).2.2 ∧
    (deleteAccepted env s1.Information.Identifier = true →
      (Destroy env s1).1 = { s1 with Information := emptyServerBody }) ∧
    (deleteAccepted env s1.Information.Identifier = false →
      (Destroy env s1).1 = s1) := by
  refine ⟨?_, ?_, ?_⟩
  · by_cases hacc : deleteAccepted env s1.Information.Identifier = true
    · rw [destroy_accepted_eq env s1 h hacc]
      simp
    · obtain ⟨e, heq⟩ := destroy_rejected_eq env s1 h (by simpa using hacc)
      rw [heq]
      simp
  · intro hacc
    rw [destroy_accepted_eq env s1 h hacc]
  · intro hacc
    obtain ⟨e, heq⟩ := destroy_rejected_eq env s1 h hacc
    rw [heq]

theorem destroy_env_congr (env env' : Env) (s : CloudServer)
    (h : env.request = env'.request) : Destroy env s = Destroy env' s := by
  unfold Destroy DoClientRequest
  rw [h]

/-- C5: for every unbound Instance, Destroy fails with the not-initialized
error, issues no remote call and leaves the state unchanged; for every bound
Instance, Create fails with the already-initialized error, issues no remote
call and leaves the state unchanged. -/
theorem c5_precondition_guards (env : Env) (s t : CloudServer)
    (loc pkg host : String)
    (hs : s.Information.Identifier = "")
    (ht : t.Information.Identifier ≠ "") :
    Destroy env s = (s, .error .notInitialized, []) ∧
    Create env t loc pkg host = .normal (t, .error .alreadyInitialized, []) :=
  ⟨destroy_unbound_eq env s hs, create_bound_eq env t loc pkg host ht⟩

/-- C5 witness: the unbound zero state and a concretely bound state. -/
theorem c5_precondition_guards_witness :
    Destroy stubEnv unboundServer = (unboundServer, .error .notInitialized, []) ∧
    Create stubEnv boundServer "loc1" "pkg1" "host-a" =
      .normal (boundServer, .error .alreadyInitialized, []) :=
  c5_precondition_guards stubEnv unboundServer boundServer "loc1" "pkg1" "host-a"
    rfl (by decide)

/-- C6: for every unbound Instance, InitializeByHostname with the empty
string and InitializeByID with the empty string fail with their
argument-validation errors, issue no remote call and leave the Instance
unbound and unchanged. -/
theorem c6_initialize_rejects_empty_argument (env : Env) (s : CloudServer)
    (hs : s.Information.Identifier = "") :
    InitializeByHostname env s "" = (s, false, .error .emptyHostnameArg, []) ∧
    InitializeByID env s "" = (s, false, .error .emptyIDArg, []) := by
  constructor
  · simp [InitializeByHostname, hs]
  · simp [InitializeByID, hs]

/-- C6 witness: the unbound zero state under the all-failing environment. -/
theorem c6_initialize_rejects_empty_argument_witness :
    InitializeByHostname stubEnv unboundServer "" =
      (unboundServer, false, .error .emptyHostnameArg, []) ∧
    InitializeByID stubEnv unboundServer "" =
      (unboundServer, false, .error .emptyIDArg, []) :=
  c6_initialize_rejects_empty_argument stubEnv unboundServer rfl

/-- C7: for every bound Instance, a DELETE answered with status 200 or
status 404 makes Destroy succeed and reset the Instance to the fully unbound
zero state, the single issued request carrying the bound identifier; and
whenever Destroy returns an error the Instance is unchanged (hence still
bound). -/
theorem c7_destroy_idempotent_codes (env : Env) (s : CloudServer)
    (hs : s.Information.Identifier ≠ "") :
    (∀ st b,
      env.request .DELETE ("cloudservers/" ++ s.Information.Identifier) =
        .response st b →
      st = 200 ∨ st = 404 →
      Destroy env s =
        ({ s with Information := emptyServerBody }, .ok (),
          [⟨.DELETE, "cloudservers/" ++ s.Information.Identifier, none⟩])) ∧
    (∀ e, (Destroy env s).2.1 = .error e → (Destroy env s).1 = s) := by
  constructor
  · intro st b hreq hst
    apply destroy_accepted_eq env s hs
    unfold deleteAccepted
    rw [hreq]
    rcases hst with rfl | rfl <;> simp
  · intro e he
    by_cases hacc : deleteAccepted env s.Information.Identifier = true
    · rw [destroy_accepted_eq env s hs hacc] at he
      simp at he
    · obtain ⟨e', heq⟩ := destroy_rejected_eq env s hs (by simpa using hacc)
      rw [heq]

/-- C7 witness: a bound server whose DELETE is answered with 200. -/
theorem c7_destroy_idempotent_codes_witness :
    Destroy envDelete200 boundServer =
      ({ boundServer with Information := emptyServerBody }, .ok (),
        [⟨.DELETE, "cloudservers/" ++ boundServer.Information.Identifier, none⟩]) :=
  (c7_destroy_idempotent_codes envDelete200 boundServer (by decide)).1
    200 .empty rfl (Or.inl rfl)

/-- C8: GetRandomPassword returns exactly `length` characters, each from the
62-character alphanumeric alphabet; the initial credential Create sends in
the creation request body is that generator's 63-character output prefixed
with the fixed character, 64 characters in all. -/
theorem c8_password_and_credential (env : Env) (s : CloudServer)
    (loc pkg host : String) (rnd : Nat → Nat) (len : Nat)
    (hs : s.Information.Identifier = "") :
    (GetRandomPassword rnd len).length = len ∧
    (∀ c ∈ (GetRandomPassword rnd len).data, c ∈ passwordChars) ∧
    (createBody env.rnd loc pkg host).InitialRootPassword =
      "p" ++ GetRandomPassword env.rnd 63 ∧
    ((createBody env.rnd loc pkg host).InitialRootPassword).length = 64 ∧
    ((∃ r, Create env s loc pkg host = .normal r ∧
        ∃ rest, r.2.2 =
          ⟨.POST, "cloudservers", some (createBody env.rnd loc pkg host)⟩ :: rest) ∨
      Create env s loc pkg host = .outOfRange) := by
  refine ⟨getRandomPassword_length rnd len, getRandomPassword_alphabet rnd len,
    rfl, ?_, create_trace_shape env s loc pkg host hs⟩
  show ("p" ++ GetRandomPassword env.rnd 63).length = 64
  rw [String.length_append, getRandomPassword_length]
  decide

/-- C8 witness: concrete random stream and length. -/
theorem c8_password_and_credential_witness :
    (GetRandomPassword (fun _ => 0) 5).length = 5 ∧
    ((createBody stubEnv.rnd "loc1" "pkg1" "host-a").InitialRootPassword).length = 64 :=
  ⟨(c8_password_and_credential stubEnv unboundServer "loc1" "pkg1" "host-a"
      (fun _ => 0) 5 rfl).1,
    (c8_password_and_credential stubEnv unboundServer "loc1" "pkg1" "host-a"
      (fun _ => 0) 5 rfl).2.2.2.1⟩

/-- C9: the identity server's capability query returns exactly the two
capabilities, controller service first, then volume accessibility
constraints; the plugin-info query returns the fixed name and version
constants; the health probe always answers not ready. -/
theorem c9_identity_fixed_responses (req1 req2 req3 : Unit) :
    GetPluginCapabilities req1 =
      (⟨[⟨.CONTROLLER_SERVICE⟩, ⟨.VOLUME_ACCESSIBILITY_CONSTRAINTS⟩]⟩, none) ∧
    GetPluginInfo req2 = (⟨DriverName, DriverVersion⟩, none) ∧
    Probe req3 = (⟨false⟩, none) :=
  ⟨rfl, rfl, rfl⟩

/-- C10: a bound Instance with an empty interface list — reachable through
InitializeByID, which binds without validating interfaces — or with an empty
first-interface address list makes SSH hit its unguarded indexing, a Go
runtime index-out-of-range panic rather than a returned error. -/
theorem c10_ssh_unguarded_index :
    SSH envLookupNoNIC noNICServer = .outOfRange ∧
    SSH envLookupNoNIC noIPServer = .outOfRange ∧
    InitializeByID envLookupNoNIC unboundServer "srv1" =
      (noNICServer, false, .ok (), [⟨.GET, "cloudservers/srv1", none⟩]) := by
  refine ⟨rfl, rfl, ?_⟩
  rfl

/-- C4 counterexample: the transport answers the creation request with a
decodable body whose identifier is empty and whose interface list is empty;
Create returns the provisioning-defect error, but no delete request is ever
issued (Destroy refuses on the empty identifier), refuting the claim that a
compensating delete carrying the resource's identifier is always issued. -/
theorem c4_provisioning_defect_cex :
    outcomeOf (Create envDefectNoID unboundServer "loc1" "pkg1" "host-a") =
      some (.error (.provisioningDefect "")) ∧
    (traceOf (Create envDefectNoID unboundServer "loc1" "pkg1" "host-a")).all
      (fun r => r.method != .DELETE) = true :=
  ⟨rfl, rfl⟩

/-- C4 (amended): when the created and decoded resource reports an empty
interface list, Create returns the provisioning-defect error naming the
decoded identifier, and the compensating delete request carrying that
identifier is issued exactly when the identifier is non-empty; with an empty
decoded identifier no delete request is issued at all. -/
theorem c4_provisioning_defect (env : Env) (s : CloudServer)
    (loc pkg host : String) (info : ServerBody)
    (hs : s.Information.Identifier = "")
    (hpost : env.request .POST "cloudservers" = .response 200 (.server info))
    (hni : info.NetworkInterfaces = []) :
    outcomeOf (Create env s loc pkg host) =
      some (.error (.provisioningDefect info.Identifier)) ∧
    (info.Identifier ≠ "" →
      (⟨.DELETE, "cloudservers/" ++ info.Identifier, none⟩ : Request) ∈
        traceOf (Create env s loc pkg host)) ∧
    (info.Identifier = "" →
      (traceOf (Create env s loc pkg host)).all
        (fun r => r.method != .DELETE) = true) := by
  rw [create_defect_eq env s loc pkg host info hs hpost hni]
  refine ⟨rfl, ?_, ?_⟩
  · intro hid
    exact List.mem_cons_of_mem _
      (destroy_observables env { s with Information := info } hid).1
  · intro hid
    rw [destroy_unbound_eq env { s with Information := info } hid]
    rfl

/-- C4 witness: a created resource with identifier srv1 and no interfaces;
the compensating delete for srv1 is issued. -/
theorem c4_provisioning_defect_witness :
    (⟨.DELETE, "cloudservers/" ++ defectInfo.Identifier, none⟩ : Request) ∈
      traceOf (Create envDefectDelete200 unboundServer "loc1" "pkg1" "host-a") :=
  (c4_provisioning_defect envDefectDelete200 unboundServer "loc1" "pkg1" "host-a"
    defectInfo rfl rfl rfl).2.1 (by decide)

/-- C1 counterexample: creation succeeds, the probe connects, opening the
shell session fails, and the compensating DELETE also fails; Create returns
the original session error (not Destroy's), yet the caller is left holding
an Instance still bound to srv1 — refuting "the caller never ends up holding
a bound Instance after the failed Create". -/
theorem c1_create_rollback_cex :
    outcomeOf (Create envSessionFailDeleteFail unboundServer "loc1" "pkg1" "host-a") =
      some (.error .sessionFailed) ∧
    (stateOf (Create envSessionFailDeleteFail unboundServer "loc1" "pkg1" "host-a")).map
      (fun c => c.Information.Identifier) = some "srv1" :=
  ⟨rfl, rfl⟩

/-- C1 (amended): every Create failure after the remote resource was created
(provisioning defect, readiness timeout, session failure, bootstrap failure)
invokes the compensating Destroy — the DELETE request for the created
identifier appears in the trace — and Create returns the original error,
never Destroy's own failure; when the DELETE is accepted the caller is left
with an unbound Instance, but when the compensating Destroy itself fails the
Instance the caller holds remains bound. -/
theorem c1_create_rollback (env : Env) (s : CloudServer)
    (loc pkg host : String) (info : ServerBody)
    (hs : s.Information.Identifier = "")
    (hpost : env.request .POST "cloudservers" = .response 200 (.server info))
    (hid : info.Identifier ≠ "") :
    (info.NetworkInterfaces = [] →
      outcomeOf (Create env s loc pkg host) =
        some (.error (.provisioningDefect info.Identifier)) ∧
      (⟨.DELETE, "cloudservers/" ++ info.Identifier, none⟩ : Request) ∈
        traceOf (Create env s loc pkg host) ∧
      (deleteAccepted env info.Identifier = true →
        stateOf (Create env s loc pkg host) =
          some { s with Information := emptyServerBody }) ∧
      (deleteAccepted env info.Identifier = false →
        stateOf (Create env s loc pkg host) =
          some { s with Information := info })) ∧
    (∀ ni0 nis ip0 ips,
      info.NetworkInterfaces = ni0 :: nis → ni0.IPAddresses = ip0 :: ips →
      (proberLoop (env.dial (dialTarget ip0)
          (createBody env.rnd loc pkg host).InitialRootPassword)
        proberFuel 0).success = false →
      outcomeOf (Create env s loc pkg host) = some (.error .sshDialFailed) ∧
      (⟨.DELETE, "cloudservers/" ++ info.Identifier, none⟩ : Request) ∈
        traceOf (Create env s loc pkg host) ∧
      (deleteAccepted env info.Identifier = true →
        stateOf (Create env s loc pkg host) =
          some { s with Information := emptyServerBody }) ∧
      (deleteAccepted env info.Identifier = false →
        stateOf (Create env s loc pkg host) =
          some { s with Information := info })) ∧
    (∀ ni0 nis ip0 ips,
      info.NetworkInterfaces = ni0 :: nis → ni0.IPAddresses = ip0 :: ips →
      (proberLoop (env.dial (dialTarget ip0)
          (createBody env.rnd loc pkg host).InitialRootPassword)
        proberFuel 0).success = true →
      env.newSession = false →
      outcomeOf (Create env s loc pkg host) = some (.error .sessionFailed) ∧
      (⟨.DELETE, "cloudservers/" ++ info.Identifier, none⟩ : Request) ∈
        traceOf (Create env s loc pkg host) ∧
      (deleteAccepted env info.Identifier = true →
        stateOf (Create env s loc pkg host) =
          some { s with Information := emptyServerBody }) ∧
      (deleteAccepted env info.Identifier = false →
        stateOf (Create env s loc pkg host) =
          some { s with Information := { info with Booted := true } })) ∧
    (∀ ni0 nis ip0 ips,
      info.NetworkInterfaces = ni0 :: nis → ni0.IPAddresses = ip0 :: ips →
      (proberLoop (env.dial (dialTarget ip0)
          (createBody env.rnd loc pkg host).InitialRootPassword)
        proberFuel 0).success = true →
      env.newSession = true →
      env.runBootstrap s.Driver.Configuration.PublicKey.trim = false →
      outcomeOf (Create env s loc pkg host) = some (.error .bootstrapFailed) ∧
      (⟨.DELETE, "cloudservers/" ++ info.Identifier, none⟩ : Request) ∈
        traceOf (Create env s loc pkg host) ∧
      (deleteAccepted env info.Identifier = true →
        stateOf (Create env s loc pkg host) =
          some { s with Information := emptyServerBody }) ∧
      (deleteAccepted env info.Identifier = false →
        stateOf (Create env s loc pkg host) =
          some { s with Information := { info with Booted := true } })) := by
  refine ⟨?_, ?_, ?_, ?_⟩
  · intro hni
    rw [create_defect_eq env s loc pkg host info hs hpost hni]
    obtain ⟨hmem, hok, hfail⟩ :=
      destroy_observables env { s with Information := info } hid
    refine ⟨rfl, List.mem_cons_of_mem _ hmem, ?_, ?_⟩
    · intro hacc
      show some (Destroy env { s with Information := info }).1 = _
      rw [hok hacc]
    · intro hacc
      show some (Destroy env { s with Information := info }).1 = _
      rw [hfail hacc]
  · intro ni0 nis ip0 ips hni hip hprobe
    rw [create_dialfail_eq env s loc pkg host info ni0 nis ip0 ips hs hpost hni hip hprobe]
    obtain ⟨hmem, hok, hfail⟩ :=
      destroy_observables env { s with Information := info } hid
    refine ⟨rfl, List.mem_cons_of_mem _ hmem, ?_, ?_⟩
    · intro hacc
      show some (Destroy env { s with Information := info }).1 = _
      rw [hok hacc]
    · intro hacc
      show some (Destroy env { s with Information := info }).1 = _
      rw [hfail hacc]
  · intro ni0 nis ip0 ips hni hip hprobe hsess
    rw [create_sessionfail_eq env s loc pkg host info ni0 nis ip0 ips hs hpost hni hip
      hprobe hsess]
    obtain ⟨hmem, hok, hfail⟩ :=
      destroy_observables env { s with Information := { info with Booted := true } } hid
    refine ⟨rfl, List.mem_cons_of_mem _ hmem, ?_, ?_⟩
    · intro hacc
      show some (Destroy env
        { s with Information := { info with Booted := true } }).1 = _
      rw [hok hacc]
    · intro hacc
      show some (Destroy env
        { s with Information := { info with Booted := true } }).1 = _
      rw [hfail hacc]
  · intro ni0 nis ip0 ips hni hip hprobe hsess hboot
    rw [create_bootstrapfail_eq env s loc pkg host info ni0 nis ip0 ips hs hpost hni hip
      hprobe hsess hboot]
    obtain ⟨hmem, hok, hfail⟩ :=
      destroy_observables env { s with Information := { info with Booted := true } } hid
    refine ⟨rfl, List.mem_cons_of_mem _ hmem, ?_, ?_⟩
    · intro hacc
      show some (Destroy env
        { s with Information := { info with Booted := true } }).1 = _
      rw [hok hacc]
    · intro hacc
      show some (Destroy env
        { s with Information := { info with Booted := true } }).1 = _
      rw [hfail hacc]

/-- C1 witness: session failure with an accepted compensating DELETE; the
original session error is returned and the caller ends unbound. -/
theorem c1_create_rollback_witness :
    outcomeOf (Create envSessionFailDelete200 unboundServer "loc1" "pkg1" "host-a") =
      some (.error .sessionFailed) ∧
    stateOf (Create envSessionFailDelete200 unboundServer "loc1" "pkg1" "host-a") =
      some { unboundServer with Information := emptyServerBody } := by
  obtain ⟨hout, _, hok, _⟩ :=
    (c1_create_rollback envSessionFailDelete200 unboundServer "loc1" "pkg1" "host-a"
      goodInfo rfl rfl (by decide)).2.2.1
      ⟨[⟨"10.0.0.1"⟩]⟩ [] ⟨"10.0.0.1"⟩ [] rfl rfl (by decide) rfl
  exact ⟨hout, hok (by decide)⟩

/-- C2 counterexample: after a session failure whose compensating DELETE also
fails, the Instance the caller holds has BootedFlag true even though the
bootstrap command never ran — refuting "on any bootstrap or session failure
the returned Instance does not have BootedFlag true". -/
theorem c2_booted_flag_cex :
    outcomeOf (Create envSessionFailDeleteFail unboundServer "loc1" "pkg1" "host-a") =
      some (.error .sessionFailed) ∧
    (stateOf (Create envSessionFailDeleteFail unboundServer "loc1" "pkg1" "host-a")).map
      (fun c => c.Information.Booted) = some true :=
  ⟨rfl, rfl⟩

/-- C2 (amended): Create sets BootedFlag once the readiness probe succeeds,
before the session and bootstrap steps: on full success the returned bound
Instance has BootedFlag true; on a session or bootstrap failure the flag is
cleared only by the compensating Destroy's reset, so when that Destroy
succeeds the Instance is unbound, and when it fails the returned Instance
still has BootedFlag true. -/
theorem c2_booted_flag (env : Env) (s : CloudServer) (loc pkg host : String)
    (info : ServerBody) (ni0 : NetworkInterface) (nis : List NetworkInterface)
    (ip0 : IPAddress) (ips : List IPAddress)
    (hs : s.Information.Identifier = "")
    (hpost : env.request .POST "cloudservers" = .response 200 (.server info))
    (hid : info.Identifier ≠ "")
    (hni : info.NetworkInterfaces = ni0 :: nis)
    (hip : ni0.IPAddresses = ip0 :: ips)
    (hprobe : (proberLoop (env.dial (dialTarget ip0)
        (createBody env.rnd loc pkg host).InitialRootPassword)
      proberFuel 0).success = true) :
    (env.newSession = true →
      env.runBootstrap s.Driver.Configuration.PublicKey.trim = true →
      Create env s loc pkg host = .normal
        ({ s with Information := { info with Booted := true } }, .ok (),
          [⟨.POST, "cloudservers", some (createBody env.rnd loc pkg host)⟩])) ∧
    (env.newSession = false →
      outcomeOf (Create env s loc pkg host) = some (.error .sessionFailed) ∧
      (deleteAccepted env info.Identifier = true →
        stateOf (Create env s loc pkg host) =
          some { s with Information := emptyServerBody }) ∧
      (deleteAccepted env info.Identifier = false →
        (stateOf (Create env s loc pkg host)).map (fun c => c.Information.Booted) =
          some true)) ∧
    (env.newSession = true →
      env.runBootstrap s.Driver.Configuration.PublicKey.trim = false →
      outcomeOf (Create env s loc pkg host) = some (.error .bootstrapFailed) ∧
      (deleteAccepted env info.Identifier = true →
        stateOf (Create env s loc pkg host) =
          some { s with Information := emptyServerBody }) ∧
      (deleteAccepted env info.Identifier = false →
        (stateOf (Create env s loc pkg host)).map (fun c => c.Information.Booted) =
          some true)) := by
  refine ⟨?_, ?_, ?_⟩
  · intro hsess hboot
    exact create_success_eq env s loc pkg host info ni0 nis ip0 ips hs hpost hni hip
      hprobe hsess hboot
  · intro hsess
    rw [create_sessionfail_eq env s loc pkg host info ni0 nis ip0 ips hs hpost hni hip
      hprobe hsess]
    obtain ⟨_, hok, hfail⟩ :=
      destroy_observables env { s with Information := { info with Booted := true } } hid
    refine ⟨rfl, ?_, ?_⟩
    · intro hacc
      show some (Destroy env
        { s with Information := { info with Booted := true } }).1 = _
      rw [hok hacc]
    · intro hacc
      show (some (Destroy env
        { s with Information := { info with Booted := true } }).1).map
          (fun c => c.Information.Booted) = some true
      rw [hfail hacc]
      rfl
  · intro hsess hboot
    rw [create_bootstrapfail_eq env s loc pkg host info ni0 nis ip0 ips hs hpost hni hip
      hprobe hsess hboot]
    obtain ⟨_, hok, hfail⟩ :=
      destroy_observables env { s with Information := { info with Booted := true } } hid
    refine ⟨rfl, ?_, ?_⟩
    · intro hacc
      show some (Destroy env
        { s with Information := { info with Booted := true } }).1 = _
      rw [hok hacc]
    · intro hacc
      show (some (Destroy env
        { s with Information := { info with Booted := true } }).1).map
          (fun c => c.Information.Booted) = some true
      rw [hfail hacc]
      rfl

/-- C2 witness: full success; the returned bound Instance has BootedFlag
true. -/
theorem c2_booted_flag_witness :
    Create envFullSuccess unboundServer "loc1" "pkg1" "host-a" = .normal
      ({ unboundServer with Information := { goodInfo with Booted := true } }, .ok (),
        [⟨.POST, "cloudservers",
          some (createBody envFullSuccess.rnd "loc1" "pkg1" "host-a")⟩]) :=
  (c2_booted_flag envFullSuccess unboundServer "loc1" "pkg1" "host-a" goodInfo
    ⟨[⟨"10.0.0.1"⟩]⟩ [] ⟨"10.0.0.1"⟩ [] rfl rfl (by decide) rfl rfl (by decide)).1
    rfl rfl

/-- C3: the readiness-probe loop never runs past the 300-second budget, and
when it gives up it has used exactly the whole budget; connection attempts
happen only when the truncated elapsed seconds are a multiple of the
10-second tick; and when no attempt succeeds within the budget Create
returns the readiness-timeout (dial) error without proceeding to the session
or bootstrap steps — its result is unchanged under any values of the session
and bootstrap oracles. -/
theorem c3_readiness_probe (env : Env) (s : CloudServer)
    (loc pkg host : String) (info : ServerBody)
    (ni0 : NetworkInterface) (nis : List NetworkInterface)
    (ip0 : IPAddress) (ips : List IPAddress)
    (hs : s.Information.Identifier = "")
    (hpost : env.request .POST "cloudservers" = .response 200 (.server info))
    (hni : info.NetworkInterfaces = ni0 :: nis)
    (hip : ni0.IPAddresses = ip0 :: ips)
    (htimeout : (proberLoop (env.dial (dialTarget ip0)
        (createBody env.rnd loc pkg host).InitialRootPassword)
      proberFuel 0).success = false) :
    (∀ d : Nat → Bool, (proberLoop d proberFuel 0).finalElapsed ≤ timeMaxMs) ∧
    (∀ d : Nat → Bool, ∀ t ∈ (proberLoop d proberFuel 0).attempts,
      (t / 1000) % timeDelaySec = 0) ∧
    (∀ d : Nat → Bool, (proberLoop d proberFuel 0).success = false →
      (proberLoop d proberFuel 0).finalElapsed = timeMaxMs) ∧
    outcomeOf (Create env s loc pkg host) = some (.error .sshDialFailed) ∧
    (∀ ns rb, Create { env with newSession := ns, runBootstrap := rb } s loc pkg host =
      Create env s loc pkg host) := by
  refine ⟨?_, ?_, ?_, ?_, ?_⟩
  · intro d
    exact proberLoop_finalElapsed_le d proberFuel 0 rfl (Nat.zero_le _)
  · intro d
    exact proberLoop_attempts_aligned d proberFuel 0
  · intro d hfail
    exact le_antisymm
      (proberLoop_finalElapsed_le d proberFuel 0 rfl (Nat.zero_le _))
      (proberLoop_timeout_exhausts_budget d proberFuel 0 (by decide) hfail)
  · rw [create_dialfail_eq env s loc pkg host info ni0 nis ip0 ips hs hpost hni hip
      htimeout]
    rfl
  · intro ns rb
    rw [create_dialfail_eq { env with newSession := ns, runBootstrap := rb }
        s loc pkg host info ni0 nis ip0 ips hs hpost hni hip htimeout,
      create_dialfail_eq env s loc pkg host info ni0 nis ip0 ips hs hpost hni hip
        htimeout,
      destroy_env_congr { env with newSession := ns, runBootstrap := rb } env
        { s with Information := info } rfl]

/-- C3 witness: a transport that creates the server but whose dials never
connect; Create times out with the dial error, and the always-failing probe
uses the exact 300-second budget. -/
theorem c3_readiness_probe_witness :
    outcomeOf (Create envTimeoutDelete200 unboundServer "loc1" "pkg1" "host-a") =
      some (.error .sshDialFailed) ∧
    (proberLoop (fun _ => false) proberFuel 0).finalElapsed = timeMaxMs := by
  have h := c3_readiness_probe envTimeoutDelete200 unboundServer "loc1" "pkg1"
    "host-a" goodInfo ⟨[⟨"10.0.0.1"⟩]⟩ [] ⟨"10.0.0.1"⟩ [] rfl rfl rfl rfl
    (by decide)
  exact ⟨h.2.2.2.1, h.2.2.1 (fun _ => false) (by decide)⟩

end Driver
